import Mathlib

/-!
Shallow embedding of `src/dailygammonNewPW_scores3.py` (the DailyGammon
score synchronizer).  The script's `main` reads an Excel workbook
(sheets "Players", "Links", "Matches", "match_flag", "control"),
logs in to the remote site, and then runs:

  * Step 1  - classify already-entered match ids (orientation detection),
  * Step 2  - discover missing match ids from player pages and backfill,
  * Step 3  - collect finished matches (winner names) from export pages,
  * Phase 1 - write intermediate scores into the "Matches" sheet,
  * Phase 2 - write the terminal value 11 into the winner's cell,
  * completion check - set the "All match IDs filled" control marker.

Cell values are modelled by `XVal` (Python: None / str / int) with Python
truthiness.  Python dicts (`matches`, `matches_by_hand`,
`match_id_to_excel`, `html_cache`, `finished_by_id`) are modelled by
insertion-ordered association lists (`pdGet`/`pdSet`) matching dict
semantics (overwrite keeps the original position; iteration follows
insertion order).  HTML parsing (BeautifulSoup) is out of scope of the
reconciliation logic: fetched documents are opaque strings and the parse
results (`extract_latest_score`, the per-row triples of a player page,
the export rows of Step 3) are supplied by a `Remote` oracle, while all
decision logic (orientation, name mapping, guards, index arithmetic,
winner-position heuristic) is translated literally from the source.
Remote responses are modelled by `Resp`: a successful response with a
body, a non-success response, or a raised `requests.RequestException`
(timeout / transport error).  A fetch of a match document through
`fetch_list_html` is logged in `fetchLog` (one entry per call), so that
the at-most-once-per-run fetch property can be stated.
-/

namespace DG

/-- A fetched document body (opaque HTML / text). -/
abbrev Doc := String

/-- A player name. -/
abbrev Name := String

/-- An Excel cell value as seen through openpyxl: empty (`None`),
a string, or an integer. -/
inductive XVal where
  | none : XVal
  | str : String → XVal
  | int : Int → XVal
deriving DecidableEq, Repr

/-- Python truthiness of a cell value (`if not val: ...`). -/
def XVal.truthy : XVal → Bool
  | .none => false
  | .str s => !s.data.isEmpty
  | .int n => n != 0

/-- Whether `needle` is a prefix of `hay` (over characters). -/
def isPrefixChars : List Char → List Char → Bool
  | [], _ => true
  | _ :: _, [] => false
  | a :: as, b :: bs => a = b && isPrefixChars as bs

/-- Whether `needle` occurs inside `hay` (over characters). -/
def occursWithin : List Char → List Char → Bool
  | hay, needle =>
    isPrefixChars needle hay ||
      (match hay with
       | [] => false
       | _ :: t => occursWithin t needle)

/-- Python substring test `needle in hay`. -/
def pyContains (hay needle : String) : Bool :=
  occursWithin hay.data needle.data

/-- Python `s.lower()` (ASCII case folding, as used for the names in
this script). -/
def pyLower (s : String) : String :=
  String.mk (s.data.map Char.toLower)

/-- Python `s.strip()`. -/
def pyStrip (s : String) : String :=
  String.mk (((s.data.dropWhile Char.isWhitespace).reverse.dropWhile Char.isWhitespace).reverse)

/-- Digit-string value, `none` on the empty string or a non-digit. -/
def parseDigits (cs : List Char) : Option Nat :=
  if cs.isEmpty then Option.none
  else if cs.all Char.isDigit then
    some (cs.foldl (fun n c => n * 10 + (c.toNat - 48)) 0)
  else Option.none

/-- Python `int(s)` on a string: optional sign, digits, surrounding
whitespace allowed; `none` (ValueError) otherwise. -/
def pyIntOfString (s : String) : Option Int :=
  match (pyStrip s).data with
  | '-' :: rest => (parseDigits rest).map (fun n => -(n : Int))
  | '+' :: rest => (parseDigits rest).map (fun n => (n : Int))
  | cs => (parseDigits cs).map (fun n => (n : Int))

/-- Python `int(val)` with the script's fallback `int(str(val).strip())`:
succeeds on ints and on strings whose trimmed content is an integer
literal; raises (here: `none`) otherwise. -/
def pyInt : XVal → Option Int
  | .int n => some n
  | .str s => pyIntOfString s
  | .none => Option.none

/-- Python `s.splitlines()` (newline-separated; no trailing empty
line). -/
def splitLinesAux : List Char → List Char → List String
  | [], [] => []
  | [], acc => [String.mk acc.reverse]
  | c :: rest, acc =>
    if c = '\n' then String.mk acc.reverse :: splitLinesAux rest []
    else splitLinesAux rest (c :: acc)

/-- Python `s.splitlines()`. -/
def pySplitLines (s : String) : List String :=
  splitLinesAux s.data []

/-- Helper for `pyFind`: first index (counting from `i`) at which
`needle` starts in the remaining text, `-1` if absent. -/
def pyFindAux (needle : List Char) : List Char → Int → Int
  | [], i => if isPrefixChars needle [] then i else -1
  | h :: t, i => if isPrefixChars needle (h :: t) then i else pyFindAux needle t (i + 1)

/-- Python `s.find(sub)`: index of the first occurrence, `-1` if absent. -/
def pyFind (s sub : String) : Int :=
  pyFindAux sub.data s.data 0

/-- Truthiness of an optional document (`if not html: ...` treats both
`None` and an empty string as absent). -/
def optDocTruthy : Option Doc → Bool
  | some s => !s.data.isEmpty
  | Option.none => false

/-- An insertion-ordered association list modelling a Python dict. -/
abbrev PyDict (K V : Type) := List (K × V)

/-- Python `d.get(k)` / `d[k]`. -/
def pdGet {K V : Type} [DecidableEq K] (d : PyDict K V) (k : K) : Option V :=
  (d.find? (fun p => decide (p.1 = k))).map (fun p => p.2)

/-- Python `d[k] = v`: overwrite in place if the key exists (keeping its
position), else append. -/
def pdSet {K V : Type} [DecidableEq K] (d : PyDict K V) (k : K) (v : V) : PyDict K V :=
  if (d.find? (fun p => decide (p.1 = k))).isSome then
    d.map (fun p => if p.1 = k then (k, v) else p)
  else d ++ [(k, v)]

/-- An HTTP response: success with a body, non-success with a body, or a
raised `requests.RequestException` (timeout / transport failure). -/
inductive Resp where
  | ok (body : Doc) : Resp
  | notOk (body : Doc) : Resp
  | exn : Resp

/-- The remote site together with the (out-of-scope) HTML parsing
primitives, fixed for one run.  `matchResp mid` is the response for the
match list page of `mid`; `pleaseLogin` is the "Please Login" check;
`extract d ps` is `extract_latest_score(d, ps)` (left name, right name,
left score, right score); `playerPage pid` is the response for a
player's user page; `parseTriples d` is the per-row scrape of
`get_player_matches` (opponent name, opponent id, match id, already
filtered by the season string); `seasonRows d` is the Step-3 scrape of a
user page (opponent name, match id, rows having export/match/user
links of this season); `exportResp mid` is the response of the export
endpoint. -/
structure Remote where
  matchResp : Int → Resp
  pleaseLogin : Doc → Bool
  extract : Doc → List Name → Option (Name × Name × Int × Int)
  playerPage : String → Resp
  parseTriples : Doc → List (Name × String × Int)
  seasonRows : Doc → List (Name × Int)
  exportResp : Int → Resp

/-- The data the script reads once at startup and never writes back:
the "Players" roster with hyperlink ids, the row/column headers of the
"Links" sheet, and the row names of the "Matches" sheet (rows from 4).
The engine writes only non-header cells, so these are constant across
runs. -/
structure Env where
  players : List Name
  playerIds : Name → Option String
  rowPlayersLinks : List Name
  colOpponentsLinks : List Name
  playersInMatches : List Name

/-- The mutable workbook regions: `links` is the "Links" sheet
(match-id grid), `flagSheet` is the "match_flag" sheet, `scoresSheet`
is the "Matches" sheet (score grid), `control` is cell A1 of the
"control" sheet. -/
structure WS where
  links : Nat × Nat → XVal
  flagSheet : Nat × Nat → XVal
  scoresSheet : Nat × Nat → XVal
  control : XVal

/-- Full run state: the workbook plus the script's dicts, plus the log
of `fetch_list_html` calls (instrumentation for the fetch-count
property; one entry per call, in call order). -/
structure St where
  ws : WS
  /-- the script's dict `matches` (`matches` is a Lean keyword). -/
  matchesDict : PyDict (Name × Name) Int
  matches_by_hand : PyDict (Name × Name) (Int × Bool)
  match_id_to_excel : PyDict Int (Name × Name × Bool)
  html_cache : PyDict Int (Option Doc)
  finished_by_id : PyDict Int Name
  fetchLog : List Int

/-- Point update of a sheet. -/
def upd (f : Nat × Nat → XVal) (p : Nat × Nat) (v : XVal) : Nat × Nat → XVal :=
  fun q => if q = p then v else f q

/-- The dict comprehension `col_index_links = {name: 2 + i ...}`:
a later duplicate name overwrites an earlier one. -/
def colIndexLinksAux (n : Name) : Nat → List Name → Option Nat
  | _, [] => Option.none
  | i, c :: rest =>
    match colIndexLinksAux n (i + 1) rest with
    | some v => some v
    | Option.none => if c = n then some i else Option.none

/-- `col_index_links.get(name)`. -/
def colIndexLinks (env : Env) (n : Name) : Option Nat :=
  colIndexLinksAux n 2 env.colOpponentsLinks

/-- `fetch_list_html`: returns the body on a successful response that is
not a login bounce, `None` on a non-success response, a "Please Login"
body, or a raised exception.  It never propagates a failure. -/
def fetch_list_html (rem : Remote) (match_id : Int) : Option Doc :=
  match rem.matchResp match_id with
  | .exn => Option.none
  | .notOk _ => Option.none
  | .ok d => if rem.pleaseLogin d then Option.none else some d

/-- `get_player_matches`: `session.get` followed by
`raise_for_status()`, with no surrounding try/except — a raised
exception or a non-success response propagates (modelled as
`Except.error`).  On success the season-filtered triples are returned,
with the opponent name stripped. -/
def get_player_matches (rem : Remote) (player_id : String) :
    Except Unit (List (Name × String × Int)) :=
  match rem.playerPage player_id with
  | .exn => Except.error ()
  | .notOk _ => Except.error ()
  | .ok d => Except.ok ((rem.parseTriples d).map (fun t => (pyStrip t.1, t.2.1, t.2.2)))

/-- `map_scores_for_excel`: aligns a DG `(left, right)` score pair with
the Excel `(player, opponent)` orientation.  Translated literally:
switched matches swap unconditionally; exact case-insensitive matches
next; then the substring fallback; otherwise `None` (skip). -/
def map_scores_for_excel (player opponent left_name right_name : Name)
    (left_score right_score : Int) (switched_flag : Bool) : Option (Int × Int) :=
  let ln := pyLower (pyStrip left_name)
  let rn := pyLower (pyStrip right_name)
  let pn := pyLower (pyStrip player)
  let on_ := pyLower (pyStrip opponent)
  if switched_flag then some (right_score, left_score)
  else if ln = pn ∧ rn = on_ then some (left_score, right_score)
  else if ln = on_ ∧ rn = pn then some (right_score, left_score)
  else if pyContains ln pn ∨ pyContains rn pn ∨ pyContains ln on_ ∨ pyContains rn on_ then
    (if pyContains ln pn then some (left_score, right_score)
     else if pyContains rn pn then some (right_score, left_score)
     else Option.none)
  else Option.none

/-- `write_score_to_excel`: translate the pairing to row/column indices
of the "Matches" sheet (two columns per opponent, `col_start = 2`,
rows from 4); refuse to write if either cell already holds the integer
11; otherwise write both scores verbatim.  Returns the updated sheet
and the function's boolean result. -/
def write_score_to_excel (env : Env) (scoresSheet : Nat × Nat → XVal)
    (excel_player excel_opponent : Name) (player_score opponent_score : Int)
    (switched_flag : Bool) : (Nat × Nat → XVal) × Bool :=
  match env.playersInMatches.findIdx? (fun q => decide (q = excel_player)),
        env.playersInMatches.findIdx? (fun q => decide (q = excel_opponent)) with
  | some pi, some ci =>
    let r_idx := pi + 4
    let c_left := 2 + ci * 2
    let c_right := c_left + 1
    if scoresSheet (r_idx, c_left) = XVal.int 11 ∨ scoresSheet (r_idx, c_right) = XVal.int 11 then
      (scoresSheet, false)
    else
      (upd (upd scoresSheet (r_idx, c_left) (XVal.int player_score))
        (r_idx, c_right) (XVal.int opponent_score), true)
  | _, _ => (scoresSheet, false)

/-- Record an entry of Step 1 with `switched = False`:
`matches[(p, o)] = mid; match_id_to_excel[mid] = (p, o, False)`. -/
def recordNormal (st : St) (p o : Name) (mid : Int) : St :=
  { st with matchesDict := pdSet st.matchesDict (p, o) mid,
            match_id_to_excel := pdSet st.match_id_to_excel mid (p, o, false) }

/-- Record a manually-entered (reversed) entry of Step 1:
`matches_by_hand[(p, o)] = (mid, True); match_id_to_excel[mid] = (p, o, True)`. -/
def recordByHand (st : St) (p o : Name) (mid : Int) : St :=
  { st with matches_by_hand := pdSet st.matches_by_hand (p, o) (mid, true),
            match_id_to_excel := pdSet st.match_id_to_excel mid (p, o, true) }

/-- The body of Step 1 for one grid cell `(player_name, opp)` at links
row `i`.  A malformed id (`int(val)` fails), a missing column index
(`cell(column=None)`), or a missing row index (`.index` ValueError,
not inside a try here) propagates as an uncaught exception
(`Except.error`).  Otherwise: read the cell, consult the match_flag
sheet, fetch only when the flag is unset (caching `None` otherwise),
then classify the orientation from the extracted names. -/
def step1Cell (env : Env) (rem : Remote) (i : Nat) (player_name opp : Name) (st : St) :
    Except Unit St :=
  if player_name = opp then Except.ok st else
  match colIndexLinks env opp with
  | Option.none => Except.error ()
  | some c =>
    let val := st.ws.links (i, c)
    if !val.truthy then Except.ok st else
    match pyInt val with
    | Option.none => Except.error ()
    | some match_id =>
      match env.rowPlayersLinks.findIdx? (fun q => decide (q = player_name)) with
      | Option.none => Except.error ()
      | some k =>
        let row_idx_flag := k + 2
        let flag_val := st.ws.flagSheet (row_idx_flag, c)
        let fetched : Option Doc × List Int :=
          if flag_val = XVal.none then
            (fetch_list_html rem match_id, st.fetchLog ++ [match_id])
          else (Option.none, st.fetchLog)
        let html := fetched.1
        let st1 : St := { st with html_cache := pdSet st.html_cache match_id html,
                                  fetchLog := fetched.2 }
        match html with
        | Option.none => Except.ok (recordNormal st1 player_name opp match_id)
        | some h =>
          if h.data.isEmpty then Except.ok (recordNormal st1 player_name opp match_id) else
          match rem.extract h [player_name, opp] with
          | Option.none => Except.ok (recordNormal st1 player_name opp match_id)
          | some (left_name, right_name, _, _) =>
            let ln := pyLower left_name
            let rn := pyLower right_name
            let pn := pyLower player_name
            let on_ := pyLower opp
            if ln = pn ∧ rn = on_ then Except.ok (recordNormal st1 player_name opp match_id)
            else if ln = on_ ∧ rn = pn then Except.ok (recordByHand st1 player_name opp match_id)
            else Except.ok (recordNormal st1 player_name opp match_id)

/-- Step 1, inner loop over the column opponents. -/
def step1Cols (env : Env) (rem : Remote) (i : Nat) (player_name : Name) :
    List Name → St → Except Unit St
  | [], st => Except.ok st
  | opp :: rest, st =>
    match step1Cell env rem i player_name opp st with
    | Except.error e => Except.error e
    | Except.ok st' => step1Cols env rem i player_name rest st'

/-- Step 1, outer loop over the row players (`enumerate(..., start=2)`). -/
def step1Rows (env : Env) (rem : Remote) : Nat → List Name → St → Except Unit St
  | _, [], st => Except.ok st
  | i, p :: rest, st =>
    match step1Cols env rem i p env.colOpponentsLinks st with
    | Except.error e => Except.error e
    | Except.ok st' => step1Rows env rem (i + 1) rest st'

/-- Step 1: check existing links (orientation detection). -/
def step1 (env : Env) (rem : Remote) (st : St) : Except Unit St :=
  step1Rows env rem 2 env.rowPlayersLinks st

/-- The body of Step 2 for one discovered triple
`(opponent_name, opponent_id, match_id)` of `player`: register the
match (propagating an orientation already known for this id), stamp the
match_flag cell, and backfill the "Links" cell only if it is empty. -/
def step2Triple (env : Env) (player : Name) (st : St) (t : Name × String × Int) : St :=
  let opponent_name := t.1
  let match_id := t.2.2
  let key := (player, opponent_name)
  if (pdGet st.matchesDict key).isSome ∨ (pdGet st.matches_by_hand key).isSome then st
  else
    let mid_int := match_id
    let switched_flag :=
      match pdGet st.match_id_to_excel mid_int with
      | some info => info.2.2
      | Option.none => false
    let st := { st with matchesDict := pdSet st.matchesDict key mid_int,
                        match_id_to_excel :=
                          pdSet st.match_id_to_excel mid_int (player, opponent_name, switched_flag) }
    match env.rowPlayersLinks.findIdx? (fun q => decide (q = player)) with
    | Option.none => st
    | some k =>
      let row_idx := k + 2
      match colIndexLinks env opponent_name with
      | Option.none => st
      | some c =>
        if opponent_name = player then st
        else
          let st := { st with ws := { st.ws with
            flagSheet := upd st.ws.flagSheet (row_idx, c)
              (XVal.int (if switched_flag then 1 else 0)) } }
          if (st.ws.links (row_idx, c)).truthy then st
          else { st with ws := { st.ws with
            links := upd st.ws.links (row_idx, c) (XVal.str (toString mid_int)) } }

/-- The body of Step 2 for one roster player: skip players without an
id, skip players with no missing opponent, otherwise query the player
page (NOT wrapped in try/except: a failure aborts) and process the
triples. -/
def step2Player (env : Env) (rem : Remote) (player : Name) (st : St) : Except Unit St :=
  match env.playerIds player with
  | Option.none => Except.ok st
  | some pid =>
    if pid.data.isEmpty then Except.ok st else
    let missing := env.players.filter (fun opp =>
      decide (opp ≠ player) && !(pdGet st.matchesDict (player, opp)).isSome
        && !(pdGet st.matches_by_hand (player, opp)).isSome)
    if missing.isEmpty then Except.ok st else
    match get_player_matches rem pid with
    | Except.error e => Except.error e
    | Except.ok player_matches => Except.ok (player_matches.foldl (step2Triple env player) st)

/-- Step 2, loop over the roster. -/
def step2Players (env : Env) (rem : Remote) : List Name → St → Except Unit St
  | [], st => Except.ok st
  | p :: rest, st =>
    match step2Player env rem p st with
    | Except.error e => Except.error e
    | Except.ok st' => step2Players env rem rest st'

/-- Step 2: fill missing match ids. -/
def step2 (env : Env) (rem : Remote) (st : St) : Except Unit St :=
  step2Players env rem env.players st

/-- The winner heuristic of Step 3: scan the export lines for the first
line containing both "and the match" and "Wins"; the winner is the page
owner if `line.find("Wins") < 24` (`mid_threshold`), else the
opponent. -/
def findWinner (player opponent_name : Name) : List String → Option Name
  | [] => Option.none
  | line :: rest =>
    if pyContains line "and the match" && pyContains line "Wins" then
      some (if pyFind line "Wins" < 24 then player else opponent_name)
    else findWinner player opponent_name rest

/-- The body of Step 3 for one season row `(opponent_name, match_id)` of
`player`'s page: fetch the export transcript (a raised exception is
caught and skips the row), run the winner heuristic, and record a
truthy winner in `finished_by_id`. -/
def step3Export (rem : Remote) (player opponent_name : Name) (match_id : Int) (st : St) : St :=
  match rem.exportResp match_id with
  | Resp.exn => st
  | Resp.ok d =>
    (match findWinner player opponent_name (pySplitLines d) with
     | some w =>
       if w.data.isEmpty then st
       else { st with finished_by_id := pdSet st.finished_by_id match_id w }
     | Option.none => st)
  | Resp.notOk d =>
    (match findWinner player opponent_name (pySplitLines d) with
     | some w =>
       if w.data.isEmpty then st
       else { st with finished_by_id := pdSet st.finished_by_id match_id w }
     | Option.none => st)

/-- The body of Step 3 for one roster player: the page fetch and
`raise_for_status` are inside try/except, so both an exception and a
non-success response just skip the player. -/
def step3Player (env : Env) (rem : Remote) (player : Name) (st : St) : St :=
  match env.playerIds player with
  | Option.none => st
  | some pid =>
    if pid.data.isEmpty then st else
    match rem.playerPage pid with
    | Resp.exn => st
    | Resp.notOk _ => st
    | Resp.ok d =>
      (rem.seasonRows d).foldl
        (fun s row => step3Export rem player (pyStrip row.1) row.2 s) st

/-- Step 3: collect finished matches. -/
def step3 (env : Env) (rem : Remote) (st : St) : St :=
  env.players.foldl (fun s p => step3Player env rem p s) st

/-- The body of Phase 1 for one `match_id_to_excel` item: reuse the
cached document if truthy, else fetch fresh (logging the fetch) and
cache the result; then extract the latest score against the "Matches"
row names, map it, and write it (skipping on any failure). -/
def phase1Entry (env : Env) (rem : Remote) (st : St) (e : Int × (Name × Name × Bool)) : St :=
  let match_id := e.1
  let excel_player := e.2.1
  let excel_opponent := e.2.2.1
  let switched_flag := e.2.2.2
  let html0 : Option Doc :=
    match pdGet st.html_cache match_id with
    | some v => v
    | Option.none => Option.none
  let step : Option Doc × St :=
    if !optDocTruthy html0 then
      let h := fetch_list_html rem match_id
      (h, { st with html_cache := pdSet st.html_cache match_id h,
                    fetchLog := st.fetchLog ++ [match_id] })
    else (html0, st)
  let html := step.1
  let st := step.2
  if !optDocTruthy html then st else
  match html with
  | Option.none => st
  | some h =>
    match rem.extract h env.playersInMatches with
    | Option.none => st
    | some (left_name, right_name, left_score, right_score) =>
      match map_scores_for_excel excel_player excel_opponent left_name right_name
          left_score right_score switched_flag with
      | Option.none => st
      | some scores =>
        { st with ws := { st.ws with
            scoresSheet := (write_score_to_excel env st.ws.scoresSheet excel_player
              excel_opponent scores.1 scores.2 switched_flag).1 } }

/-- Phase 1: write intermediate scores
(`for match_id, ... in list(match_id_to_excel.items())`). -/
def phase1 (env : Env) (rem : Remote) (st : St) : St :=
  st.match_id_to_excel.foldl (phase1Entry env rem) st

/-- Write the integer 11 into one score cell. -/
def setEleven (st : St) (rc : Nat × Nat) : St :=
  { st with ws := { st.ws with scoresSheet := upd st.ws.scoresSheet rc (XVal.int 11) } }

/-- The body of Phase 2 for one `finished_by_id` item: look up the
pairing, translate to indices (a ValueError skips), and write 11 into
the cell selected by the winner comparison — with the left/right choice
mirrored when `switched_flag` is set. -/
def phase2Entry (env : Env) (st : St) (e : Int × Name) : St :=
  let match_id := e.1
  let winner_name := e.2
  match pdGet st.match_id_to_excel match_id with
  | Option.none => st
  | some info =>
    let excel_player := info.1
    let excel_opponent := info.2.1
    let switched_flag := info.2.2
    match env.playersInMatches.findIdx? (fun q => decide (q = excel_player)),
          env.playersInMatches.findIdx? (fun q => decide (q = excel_opponent)) with
    | some pi, some ci =>
      let r_idx := pi + 4
      let c_left := 2 + ci * 2
      let c_right := c_left + 1
      let winner_lower := pyLower (pyStrip winner_name)
      if switched_flag then
        if winner_lower = pyLower excel_player then setEleven st (r_idx, c_right)
        else if winner_lower = pyLower excel_opponent then setEleven st (r_idx, c_left)
        else st
      else
        if winner_lower = pyLower excel_player then setEleven st (r_idx, c_left)
        else if winner_lower = pyLower excel_opponent then setEleven st (r_idx, c_right)
        else st
    | _, _ => st

/-- Phase 2: set the winner's cell to 11 for every finished match. -/
def phase2 (env : Env) (st : St) : St :=
  st.finished_by_id.foldl (phase2Entry env) st

/-- One row of the final completeness scan: every off-diagonal cell of
this links row must be truthy. -/
def allFilledRows (env : Env) (links : Nat × Nat → XVal) : Nat → List Name → Bool
  | _, [] => true
  | i, p :: rest =>
    (env.colOpponentsLinks.all (fun opp =>
      decide (p = opp) ||
        (match colIndexLinks env opp with
         | some c => (links (i, c)).truthy
         | Option.none => false)))
    && allFilledRows env links (i + 1) rest

/-- The final `all_filled` scan of the "Links" sheet (the double loop
with early `break` is equivalent to this conjunction). -/
def allFilledCheck (env : Env) (links : Nat × Nat → XVal) : Bool :=
  allFilledRows env links 2 env.rowPlayersLinks

/-- The completion step: set the control marker when the scan passes;
an existing marker is never cleared. -/
def completion (env : Env) (st : St) : St :=
  if allFilledCheck env st.ws.links then
    { st with ws := { st.ws with control := XVal.str "All match IDs filled" } }
  else st

/-- The header writes into the `match_flag` sheet (opponent names in
row 1, player names in column 1), performed at the start of every run. -/
def writeColHeaders : Nat → List Name → (Nat × Nat → XVal) → (Nat × Nat → XVal)
  | _, [], f => f
  | c, nm :: rest, f => writeColHeaders (c + 1) rest (upd f (1, c) (XVal.str nm))

/-- Row headers of the `match_flag` sheet. -/
def writeRowHeaders : Nat → List Name → (Nat × Nat → XVal) → (Nat × Nat → XVal)
  | _, [], f => f
  | r, nm :: rest, f => writeRowHeaders (r + 1) rest (upd f (r, 1) (XVal.str nm))

/-- Write both header bands of the `match_flag` sheet. -/
def flagHeaders (env : Env) (st : St) : St :=
  { st with ws := { st.ws with
      flagSheet := writeRowHeaders 2 env.rowPlayersLinks
        (writeColHeaders 2 env.colOpponentsLinks st.ws.flagSheet) } }

/-- Fresh run state over a workbook: all dicts start empty (there is no
inter-run cache). -/
def initSt (ws : WS) : St :=
  { ws := ws, matchesDict := [], matches_by_hand := [], match_id_to_excel := [],
    html_cache := [], finished_by_id := [], fetchLog := [] }

/-- One full run of the engine over a workbook, given the roster data
and the remote world: write the flag headers, read the control marker
(skipping Steps 1-2 when it holds the sentinel), then Step 3, Phase 1,
Phase 2 and the completion check.  An uncaught exception in Step 1
(malformed id) or Step 2 (player-page fetch failure) aborts the run. -/
def run (env : Env) (rem : Remote) (ws : WS) : Except Unit St :=
  let st0 := flagHeaders env (initSt ws)
  let afterSteps : Except Unit St :=
    if st0.ws.control = XVal.str "All match IDs filled" then Except.ok st0
    else
      match step1 env rem st0 with
      | Except.error e => Except.error e
      | Except.ok st1 => step2 env rem st1
  match afterSteps with
  | Except.error e => Except.error e
  | Except.ok st2 =>
    Except.ok (completion env (phase2 env (phase1 env rem (step3 env rem st2))))


/-! ### Concrete fixtures

Small concrete rosters, workbooks and remote worlds used to evaluate
the engine at specific inputs (counterexamples and witnesses).  All of
them are closed, computable values, so the engine runs on them inside
the kernel. -/

/-- Two-player roster without hyperlink ids. -/
def envTwo : Env := {
  players := ["alice", "bob"],
  playerIds := fun _ => Option.none,
  rowPlayersLinks := ["alice", "bob"],
  colOpponentsLinks := ["alice", "bob"],
  playersInMatches := ["alice", "bob"] }

/-- Two-player roster where only alice has a hyperlink id. -/
def envAlice : Env := { envTwo with
  playerIds := fun p => if p = "alice" then some "1" else Option.none }

/-- A remote world where match 123 resolves to document "M" listing
alice on the left. -/
def remNormal : Remote := {
  matchResp := fun mid => if mid = 123 then Resp.ok "M" else Resp.exn,
  pleaseLogin := fun _ => false,
  extract := fun d _ => if d = "M" then some ("alice", "bob", 1, 2) else Option.none,
  playerPage := fun _ => Resp.exn,
  parseTriples := fun _ => [],
  seasonRows := fun _ => [],
  exportResp := fun _ => Resp.exn }

/-- A workbook whose "Links" sheet holds the id 123 in BOTH oriented
cells of the alice/bob pairing (row alice = 2, col bob = 3 and row
bob = 3, col alice = 2); everything else empty. -/
def wsBothCells : WS := {
  links := fun rc =>
    if rc = (2, 3) then XVal.str "123" else if rc = (3, 2) then XVal.str "123" else XVal.none,
  flagSheet := fun _ => XVal.none,
  scoresSheet := fun _ => XVal.none,
  control := XVal.none }

/-- An export transcript whose "Wins" occurs at character offset 30
(past the `mid_threshold` of 24), so the winner heuristic picks the
opponent. -/
def expDocRight : String := "                              Wins 11 and the match"

/-- An export transcript whose "Wins" occurs at offset 6 (before the
threshold), so the winner heuristic picks the page owner. -/
def expDocLeft : String := "alice Wins 1 point and the match"

/-- A remote world for the finished-pairing scenario: the match page of
123 is unreachable, but alice's page "U" reports the finished match 123
against bob whose export names bob as the winner. -/
def remFinishedBob : Remote := {
  matchResp := fun _ => Resp.exn,
  pleaseLogin := fun _ => false,
  extract := fun _ _ => Option.none,
  playerPage := fun pid => if pid = "1" then Resp.ok "U" else Resp.exn,
  parseTriples := fun _ => [],
  seasonRows := fun d => if d = "U" then [("bob", 123)] else [],
  exportResp := fun mid => if mid = 123 then Resp.ok expDocRight else Resp.exn }

/-- A workbook where the alice/bob pairing is identified (cell (2,3))
and already Finished: alice's score cell (4,4) holds the terminal 11,
bob's cell (4,5) holds the intermediate 7. -/
def wsFinished : WS := {
  links := fun rc => if rc = (2, 3) then XVal.str "123" else XVal.none,
  flagSheet := fun _ => XVal.none,
  scoresSheet := fun rc =>
    if rc = (4, 4) then XVal.int 11 else if rc = (4, 5) then XVal.int 7 else XVal.none,
  control := XVal.none }

/-- A remote world for the switched-winner scenario: match 123 lists
bob on the left (reversed relative to the grid cell (alice, bob), so
Step 1 classifies it Switched), and alice's export says alice won. -/
def remSwitchedAliceWins : Remote := {
  matchResp := fun mid => if mid = 123 then Resp.ok "M" else Resp.exn,
  pleaseLogin := fun _ => false,
  extract := fun d _ => if d = "M" then some ("bob", "alice", 3, 5) else Option.none,
  playerPage := fun pid => if pid = "1" then Resp.ok "U" else Resp.exn,
  parseTriples := fun _ => [],
  seasonRows := fun d => if d = "U" then [("bob", 123)] else [],
  exportResp := fun mid => if mid = 123 then Resp.ok expDocLeft else Resp.exn }

/-- A workbook with only the (alice, bob) identifier cell filled. -/
def wsOneId : WS := {
  links := fun rc => if rc = (2, 3) then XVal.str "123" else XVal.none,
  flagSheet := fun _ => XVal.none,
  scoresSheet := fun _ => XVal.none,
  control := XVal.none }

/-- A remote world whose player pages answer with a non-success
response. -/
def remPageDown : Remote := {
  matchResp := fun _ => Resp.exn,
  pleaseLogin := fun _ => false,
  extract := fun _ _ => Option.none,
  playerPage := fun _ => Resp.notOk "E",
  parseTriples := fun _ => [],
  seasonRows := fun _ => [],
  exportResp := fun _ => Resp.exn }

/-- An entirely empty workbook. -/
def wsEmpty : WS := {
  links := fun _ => XVal.none,
  flagSheet := fun _ => XVal.none,
  scoresSheet := fun _ => XVal.none,
  control := XVal.none }

/-- An empty workbook that already carries the completion marker
(e.g. after a new player was added to a completed grid). -/
def wsMarkerEmpty : WS := { wsEmpty with control := XVal.str "All match IDs filled" }

/-- The three-player roster for the two-run scenario: alice and bob
have hyperlink ids, the newcomer carol has none. -/
def envThree : Env := {
  players := ["alice", "bob", "carol"],
  playerIds := fun p =>
    if p = "alice" then some "1" else if p = "bob" then some "2" else Option.none,
  rowPlayersLinks := ["alice", "bob", "carol"],
  colOpponentsLinks := ["alice", "bob", "carol"],
  playersInMatches := ["alice", "bob", "carol"] }

/-- The remote world of the two-run scenario: match 123's page lists
bob first with scores 3:5 (reversed relative to the manually entered
cell (alice, bob)), and bob's page reports the same match against
alice, so Step 2 discovers it from bob's side and propagates the
Switched orientation. -/
def remTwoRun : Remote := {
  matchResp := fun mid => if mid = 123 then Resp.ok "M" else Resp.exn,
  pleaseLogin := fun _ => false,
  extract := fun d _ => if d = "M" then some ("bob", "alice", 3, 5) else Option.none,
  playerPage := fun pid =>
    if pid = "1" then Resp.ok "UA" else if pid = "2" then Resp.ok "UB" else Resp.exn,
  parseTriples := fun d => if d = "UB" then [("alice", "7", 123)] else [],
  seasonRows := fun _ => [],
  exportResp := fun _ => Resp.exn }

/-- The starting workbook of the two-run scenario: only the manually
entered id at (alice, bob). -/
def wsTwoRun : WS := {
  links := fun rc => if rc = (2, 3) then XVal.str "123" else XVal.none,
  flagSheet := fun _ => XVal.none,
  scoresSheet := fun _ => XVal.none,
  control := XVal.none }

/-- A tiny single-pairing score sheet where alice's cell (4,4) already
holds 11. -/
def sheetFinished : Nat × Nat → XVal :=
  fun rc => if rc = (4, 4) then XVal.int 11 else XVal.none

/-- A run state over `sheetFinished` with no finished matches (used to
instantiate the Phase-2 statements at a concrete input). -/
def stFinished : St :=
  initSt { links := fun _ => XVal.none, flagSheet := fun _ => XVal.none,
           scoresSheet := sheetFinished, control := XVal.none }

/-- A run state for the switched Phase-2 witness: the mapping knows
match 7 as the Switched pairing (alice, bob). -/
def stSwitched : St :=
  { initSt { links := fun _ => XVal.none, flagSheet := fun _ => XVal.none,
             scoresSheet := fun _ => XVal.none, control := XVal.none } with
    match_id_to_excel := [(7, ("alice", "bob", true))] }

/-- A run state for the abstention witness: match 5's document "D" is
cached, and its score line names carol and dave — neither name of the
(eve, frank) pairing. -/
def stAbstain : St :=
  { initSt { links := fun _ => XVal.none, flagSheet := fun _ => XVal.none,
             scoresSheet := fun _ => XVal.none, control := XVal.none } with
    html_cache := [(5, some "D")] }

/-- The roster/remote pair for the abstention witness. -/
def envAbstain : Env := { envTwo with playersInMatches := ["eve", "frank"] }

/-- Remote world for the abstention witness: document "D" extracts to
the names carol/dave. -/
def remAbstain : Remote := { remNormal with
  extract := fun d _ => if d = "D" then some ("carol", "dave", 2, 3) else Option.none }

/-! ### Generic fold lemmas -/

/-- A projection preserved by every step of a fold is preserved by the
whole fold. -/
theorem foldl_pres {σ α γ : Type _} (g : σ → γ) (f : σ → α → σ)
    (h : ∀ s a, g (f s a) = g s) : ∀ (l : List α) (s : σ), g (l.foldl f s) = g s := by
  intro l
  induction l with
  | nil => intro s; rfl
  | cons a t ih => intro s; rw [List.foldl_cons, ih, h]

/-- A fold whose step fixes every state satisfying `P` fixes such
states. -/
theorem foldl_id_of {σ α : Type _} (f : σ → α → σ) (P : σ → Prop)
    (hf : ∀ s a, P s → f s a = s) : ∀ (l : List α) (s : σ), P s → l.foldl f s = s := by
  intro l
  induction l with
  | nil => intro s _; rfl
  | cons a t ih => intro s hP; rw [List.foldl_cons, hf s a hP]; exact ih s hP

/-- A cell-wise projection whose truthy values are step-invariant is
fold-invariant on truthy cells. -/
theorem foldl_pres_truthy {σ α : Type _} (g : σ → Nat × Nat → XVal) (f : σ → α → σ)
    (h : ∀ s a rc, (g s rc).truthy → g (f s a) rc = g s rc) :
    ∀ (l : List α) (s : σ) (rc : Nat × Nat), (g s rc).truthy → g (l.foldl f s) rc = g s rc := by
  intro l
  induction l with
  | nil => intro s rc _; rfl
  | cons a t ih =>
    intro s rc ht
    have h1 := h s a rc ht
    rw [List.foldl_cons, ih (f s a) rc (by rw [h1]; exact ht), h1]

/-- A fold each of whose steps either keeps a cell or writes the
integer 11 there keeps the cell or leaves 11. -/
theorem foldl_or11 {σ α : Type _} (g : σ → Nat × Nat → XVal) (f : σ → α → σ)
    (h : ∀ s a rc, g (f s a) rc = g s rc ∨ g (f s a) rc = XVal.int 11) :
    ∀ (l : List α) (s : σ) (rc : Nat × Nat),
      g (l.foldl f s) rc = g s rc ∨ g (l.foldl f s) rc = XVal.int 11 := by
  intro l
  induction l with
  | nil => intro s rc; exact Or.inl rfl
  | cons a t ih =>
    intro s rc
    rw [List.foldl_cons]
    rcases ih (f s a) rc with h1 | h1
    · rcases h s a rc with h2 | h2
      · exact Or.inl (h1.trans h2)
      · exact Or.inr (h1.trans h2)
    · exact Or.inr h1

/-! ### Preservation lemmas for the individual steps -/

/-- `step1Cell` never touches the workbook: on success the sheets are
unchanged. -/
theorem step1Cell_ws (env : Env) (rem : Remote) (i : Nat) (p opp : Name) (s s' : St)
    (h : step1Cell env rem i p opp s = Except.ok s') : s'.ws = s.ws := by
  simp only [step1Cell] at h
  repeat' split at h
  all_goals first
    | (cases h; rfl)
    | exact absurd h (by simp)

/-- `step1Cols` never touches the workbook. -/
theorem step1Cols_ws (env : Env) (rem : Remote) (i : Nat) (p : Name) :
    ∀ (l : List Name) (s s' : St), step1Cols env rem i p l s = Except.ok s' → s'.ws = s.ws := by
  intro l
  induction l with
  | nil => intro s s' h; cases h; rfl
  | cons o t ih =>
    intro s s' h
    unfold step1Cols at h
    split at h
    · exact absurd h (by simp)
    · next st1 heq => exact (ih st1 s' h).trans (step1Cell_ws env rem i p o s st1 heq)

/-- `step1Rows` never touches the workbook. -/
theorem step1Rows_ws (env : Env) (rem : Remote) :
    ∀ (rows : List Name) (i : Nat) (s s' : St),
      step1Rows env rem i rows s = Except.ok s' → s'.ws = s.ws := by
  intro rows
  induction rows with
  | nil => intro i s s' h; cases h; rfl
  | cons p t ih =>
    intro i s s' h
    unfold step1Rows at h
    split at h
    · exact absurd h (by simp)
    · next st1 heq => exact (ih (i + 1) st1 s' h).trans (step1Cols_ws env rem i p _ s st1 heq)

/-- `step1` never touches the workbook. -/
theorem step1_ws (env : Env) (rem : Remote) (s s' : St)
    (h : step1 env rem s = Except.ok s') : s'.ws = s.ws :=
  step1Rows_ws env rem env.rowPlayersLinks 2 s s' h

/-- `step2Triple` changes only the flag sheet, the links sheet and the
dicts: scores and control are unchanged. -/
theorem step2Triple_scores_control (env : Env) (p : Name) (s : St) (t : Name × String × Int) :
    (step2Triple env p s t).ws.scoresSheet = s.ws.scoresSheet ∧
      (step2Triple env p s t).ws.control = s.ws.control := by
  simp only [step2Triple]
  repeat' split
  all_goals exact ⟨rfl, rfl⟩

/-- `step2Triple` keeps the value of every truthy links cell. -/
theorem step2Triple_links_truthy (env : Env) (p : Name) (s : St) (t : Name × String × Int)
    (rc : Nat × Nat) (ht : (s.ws.links rc).truthy) :
    (step2Triple env p s t).ws.links rc = s.ws.links rc := by
  simp only [step2Triple]
  repeat' split
  all_goals first
    | rfl
    | (simp only [upd]
       split
       · next heqrc => subst heqrc; exact absurd ht (by assumption)
       · rfl)

/-- `step2Player` on success changes neither scores nor control. -/
theorem step2Player_scores_control (env : Env) (rem : Remote) (p : Name) (s s' : St)
    (h : step2Player env rem p s = Except.ok s') :
    s'.ws.scoresSheet = s.ws.scoresSheet ∧ s'.ws.control = s.ws.control := by
  simp only [step2Player] at h
  repeat' split at h
  all_goals first
    | (cases h; exact ⟨rfl, rfl⟩)
    | (cases h
       constructor
       · exact foldl_pres (fun s => s.ws.scoresSheet) _
           (fun s t => (step2Triple_scores_control env p s t).1) _ s
       · exact foldl_pres (fun s => s.ws.control) _
           (fun s t => (step2Triple_scores_control env p s t).2) _ s)
    | exact absurd h (by simp)

/-- `step2Player` keeps the value of every truthy links cell. -/
theorem step2Player_links_truthy (env : Env) (rem : Remote) (p : Name) (s s' : St)
    (h : step2Player env rem p s = Except.ok s') (rc : Nat × Nat)
    (ht : (s.ws.links rc).truthy) : s'.ws.links rc = s.ws.links rc := by
  simp only [step2Player] at h
  repeat' split at h
  all_goals first
    | (cases h; rfl)
    | (cases h
       exact foldl_pres_truthy (fun s => s.ws.links) _
         (fun s t rc ht => step2Triple_links_truthy env p s t rc ht) _ s rc ht)
    | exact absurd h (by simp)

/-- `step2Players` on success changes neither scores nor control. -/
theorem step2Players_scores_control (env : Env) (rem : Remote) :
    ∀ (l : List Name) (s s' : St), step2Players env rem l s = Except.ok s' →
      s'.ws.scoresSheet = s.ws.scoresSheet ∧ s'.ws.control = s.ws.control := by
  intro l
  induction l with
  | nil => intro s s' h; cases h; exact ⟨rfl, rfl⟩
  | cons p t ih =>
    intro s s' h
    unfold step2Players at h
    split at h
    · exact absurd h (by simp)
    · next st1 heq =>
        have h1 := step2Player_scores_control env rem p s st1 heq
        have h2 := ih st1 s' h
        exact ⟨h2.1.trans h1.1, h2.2.trans h1.2⟩

/-- `step2Players` keeps the value of every truthy links cell. -/
theorem step2Players_links_truthy (env : Env) (rem : Remote) :
    ∀ (l : List Name) (s s' : St), step2Players env rem l s = Except.ok s' →
      ∀ rc : Nat × Nat, (s.ws.links rc).truthy → s'.ws.links rc = s.ws.links rc := by
  intro l
  induction l with
  | nil => intro s s' h rc _; cases h; rfl
  | cons p t ih =>
    intro s s' h rc ht
    unfold step2Players at h
    split at h
    · exact absurd h (by simp)
    · next st1 heq =>
        have h1 := step2Player_links_truthy env rem p s st1 heq rc ht
        have h2 := ih st1 s' h rc (by rw [h1]; exact ht)
        exact h2.trans h1

/-- `step3Export` changes only `finished_by_id`. -/
theorem step3Export_ws_dicts (rem : Remote) (p o : Name) (mid : Int) (s : St) :
    (step3Export rem p o mid s).ws = s.ws ∧
      (step3Export rem p o mid s).match_id_to_excel = s.match_id_to_excel := by
  simp only [step3Export]
  repeat' split
  all_goals exact ⟨rfl, rfl⟩

/-- `step3Player` changes only `finished_by_id`. -/
theorem step3Player_ws_dicts (env : Env) (rem : Remote) (p : Name) (s : St) :
    (step3Player env rem p s).ws = s.ws ∧
      (step3Player env rem p s).match_id_to_excel = s.match_id_to_excel := by
  simp only [step3Player]
  repeat' split
  all_goals first
    | exact ⟨rfl, rfl⟩
    | (constructor
       · exact foldl_pres (fun s => s.ws) _
           (fun (s : St) (row : Name × Int) => (step3Export_ws_dicts rem p (pyStrip row.1) row.2 s).1) _ s
       · exact foldl_pres (fun s => s.match_id_to_excel) _
           (fun (s : St) (row : Name × Int) => (step3Export_ws_dicts rem p (pyStrip row.1) row.2 s).2) _ s)

/-- `step3` changes only `finished_by_id`. -/
theorem step3_ws_dicts (env : Env) (rem : Remote) (s : St) :
    (step3 env rem s).ws = s.ws ∧
      (step3 env rem s).match_id_to_excel = s.match_id_to_excel := by
  constructor
  · exact foldl_pres (fun s => s.ws) _
      (fun s p => (step3Player_ws_dicts env rem p s).1) _ s
  · exact foldl_pres (fun s => s.match_id_to_excel) _
      (fun s p => (step3Player_ws_dicts env rem p s).2) _ s

/-- `phase1Entry` changes only the scores sheet, the cache and the
fetch log. -/
theorem phase1Entry_other (env : Env) (rem : Remote) (s : St) (e : Int × (Name × Name × Bool)) :
    (phase1Entry env rem s e).ws.links = s.ws.links ∧
      (phase1Entry env rem s e).ws.control = s.ws.control ∧
      (phase1Entry env rem s e).match_id_to_excel = s.match_id_to_excel ∧
      (phase1Entry env rem s e).finished_by_id = s.finished_by_id := by
  simp only [phase1Entry]
  repeat' split
  all_goals exact ⟨rfl, rfl, rfl, rfl⟩

/-- `phase1` changes only the scores sheet, the cache and the fetch
log. -/
theorem phase1_other (env : Env) (rem : Remote) (s : St) :
    (phase1 env rem s).ws.links = s.ws.links ∧
      (phase1 env rem s).ws.control = s.ws.control ∧
      (phase1 env rem s).match_id_to_excel = s.match_id_to_excel ∧
      (phase1 env rem s).finished_by_id = s.finished_by_id := by
  refine ⟨?_, ?_, ?_, ?_⟩
  · exact foldl_pres (fun s => s.ws.links) _
      (fun s e => (phase1Entry_other env rem s e).1) _ s
  · exact foldl_pres (fun s => s.ws.control) _
      (fun s e => (phase1Entry_other env rem s e).2.1) _ s
  · exact foldl_pres (fun s => s.match_id_to_excel) _
      (fun s e => (phase1Entry_other env rem s e).2.2.1) _ s
  · exact foldl_pres (fun s => s.finished_by_id) _
      (fun s e => (phase1Entry_other env rem s e).2.2.2) _ s

/-- `phase2Entry` changes only the scores sheet. -/
theorem phase2Entry_other (env : Env) (s : St) (e : Int × Name) :
    (phase2Entry env s e).ws.links = s.ws.links ∧
      (phase2Entry env s e).ws.control = s.ws.control ∧
      (phase2Entry env s e).match_id_to_excel = s.match_id_to_excel := by
  simp only [phase2Entry, setEleven]
  repeat' split
  all_goals exact ⟨rfl, rfl, rfl⟩

/-- `phase2` changes only the scores sheet. -/
theorem phase2_other (env : Env) (s : St) :
    (phase2 env s).ws.links = s.ws.links ∧
      (phase2 env s).ws.control = s.ws.control := by
  constructor
  · exact foldl_pres (fun s => s.ws.links) _
      (fun s e => (phase2Entry_other env s e).1) _ s
  · exact foldl_pres (fun s => s.ws.control) _
      (fun s e => (phase2Entry_other env s e).2.1) _ s

/-- `phase2Entry` writes only the value 11 into the scores sheet. -/
theorem phase2Entry_scores (env : Env) (s : St) (e : Int × Name) (rc : Nat × Nat) :
    (phase2Entry env s e).ws.scoresSheet rc = s.ws.scoresSheet rc ∨
      (phase2Entry env s e).ws.scoresSheet rc = XVal.int 11 := by
  simp only [phase2Entry, setEleven]
  repeat' split
  all_goals first
    | exact Or.inl rfl
    | (simp only [upd]
       split
       · exact Or.inr rfl
       · exact Or.inl rfl)

/-- `phase2` writes only the value 11 into the scores sheet. -/
theorem phase2_scores (env : Env) (s : St) (rc : Nat × Nat) :
    (phase2 env s).ws.scoresSheet rc = s.ws.scoresSheet rc ∨
      (phase2 env s).ws.scoresSheet rc = XVal.int 11 :=
  foldl_or11 (fun s => s.ws.scoresSheet) _
    (fun s e rc => phase2Entry_scores env s e rc) _ s rc

/-- `phase2` fixes states with an empty `match_id_to_excel`. -/
theorem phase2_m2e_nil (env : Env) (s : St) (h : s.match_id_to_excel = []) :
    phase2 env s = s := by
  unfold phase2
  refine foldl_id_of _ (fun s => s.match_id_to_excel = []) ?_ _ s h
  intro s e hP
  unfold phase2Entry
  rw [hP]
  rfl

/-- `completion` changes only the control cell, which it sets to the
sentinel exactly when the scan passes. -/
theorem completion_spec (env : Env) (s : St) :
    (completion env s).ws.links = s.ws.links ∧
      (completion env s).ws.scoresSheet = s.ws.scoresSheet ∧
      (completion env s).ws.control =
        (if allFilledCheck env s.ws.links then XVal.str "All match IDs filled"
         else s.ws.control) := by
  unfold completion
  split
  · exact ⟨rfl, rfl, rfl⟩
  · exact ⟨rfl, rfl, rfl⟩

/-! ### Claim theorems -/

/-- C2 counterexample: the claim "once either slot of a pairing holds
the terminal value 11, no subsequent write from either phase changes
either of that pairing's two score cells" is false at a concrete input.
The alice/bob pairing starts Finished — alice's cell (4,4) holds 11 and
bob's cell (4,5) holds 7 — yet a run whose Step 3 reports bob as the
winner of match 123 changes bob's cell from 7 to 11 in the terminal
phase (Phase 2 checks no Finished guard). -/
theorem c2_finished_pairing_cell_changed :
    wsFinished.scoresSheet (4, 4) = XVal.int 11 ∧
    wsFinished.scoresSheet (4, 5) = XVal.int 7 ∧
    (run envAlice remFinishedBob wsFinished).map (fun st => st.ws.scoresSheet (4, 5)) =
      Except.ok (XVal.int 11) :=
  ⟨rfl, rfl, rfl⟩

/-- C3 counterexample: the claim "the terminal value 11 is written into
exactly the winner's axis cell — the row player's score cell when the
winner's name equals the row player" is false at a concrete input with
Switched orientation.  Match 123 is classified Switched for the pairing
(row alice, col bob); the winner reported is alice (the row player);
but after the run alice's row-axis cell (4,4) holds the intermediate 5
while the column-axis cell (4,5) — bob's — holds the terminal 11. -/
theorem c3_switched_winner_cell_swapped :
    (run envAlice remSwitchedAliceWins wsOneId).map
        (fun st => (st.ws.scoresSheet (4, 4), st.ws.scoresSheet (4, 5))) =
      Except.ok (XVal.int 5, XVal.int 11) :=
  rfl

/-- C4: the claim "every match identifier is fetched at most once per
run" is false — and contradicts the script's own docstring ("Each
match_id is requested from DG at most once").  When the id 123 is
present in BOTH oriented cells (row alice/col bob and row bob/col
alice) and neither match_flag cell is set, Step 1 executes
`html_cache[match_id] = fetch_list_html(...)` unconditionally for each
cell, so the fetch log of the run contains 123 twice. -/
theorem c4_double_fetch :
    (run envTwo remNormal wsBothCells).map (fun st => st.fetchLog) =
      Except.ok [123, 123] :=
  rfl

/-- C5 counterexample: the claim "no remote-fetch failure after login
aborts the run" is false.  `get_player_matches` calls `session.get`
plus `raise_for_status()` with no surrounding try/except, and Step 2
does not catch either; a non-success response for alice's player page
makes the whole run abort (`Except.error`), before any later phase. -/
theorem c5_step2_fetch_failure_aborts :
    run envAlice remPageDown wsEmpty = Except.error () :=
  rfl

/-- C7 counterexample: the claim "the grid is marked complete if and
only if every off-diagonal identifier cell is non-empty; introducing
one missing identifier makes the grid not marked complete" is false.
Starting from a workbook that carries the completion marker but has an
empty off-diagonal identifier cell (2,3) — the situation after adding a
new player to a completed grid — the run ends with the marker still
present and the cell still empty: the marker is set but never
cleared. -/
theorem c7_stale_marker :
    (run envTwo remNormal wsMarkerEmpty).map
        (fun st => (st.ws.control, st.ws.links (2, 3))) =
      Except.ok (XVal.str "All match IDs filled", XVal.none) :=
  rfl

/-- C8: the claim "running the engine twice with identical remote data
from the same grid yields identical grids after both runs" is false —
idempotence breaks because the Switched orientation propagated through
Step 2 in the first run is forgotten in the second run (the match_flag
value 1 is written but never read back; a flagged cell skips refetching
and is re-classified Normal).  Concretely: run 1 writes bob's row score
cell (5,2) as 5, run 2 rewrites it to 3 (the two scores swapped). -/
theorem c8_second_run_differs :
    ((run envThree remTwoRun wsTwoRun).bind (fun s1 =>
        (run envThree remTwoRun s1.ws).map (fun s2 =>
          (s1.ws.scoresSheet (5, 2), s2.ws.scoresSheet (5, 2))))) =
      Except.ok (XVal.int 5, XVal.int 3) ∧
    XVal.int 5 ≠ XVal.int 3 :=
  ⟨rfl, by decide⟩

/-- C10: the intermediate-score writer stores the mapped scores
verbatim: whenever both players are found in the "Matches" sheet and
neither cell of the pairing holds 11 yet, `write_score_to_excel` puts
exactly the given `player_score` and `opponent_score` into the two
cells (and reports success) — in particular a freshly extracted 11 is
written by Phase 1 itself, making the pairing Finished without the
terminal phase. -/
theorem c10_verbatim_scores (env : Env) (sheet : Nat × Nat → XVal)
    (p o : Name) (ps os_ : Int) (sw : Bool) (pi ci : Nat)
    (hp : env.playersInMatches.findIdx? (fun q => decide (q = p)) = some pi)
    (ho : env.playersInMatches.findIdx? (fun q => decide (q = o)) = some ci)
    (h11 : ¬(sheet (pi + 4, 2 + ci * 2) = XVal.int 11 ∨
             sheet (pi + 4, 2 + ci * 2 + 1) = XVal.int 11)) :
    (write_score_to_excel env sheet p o ps os_ sw).1 (pi + 4, 2 + ci * 2) = XVal.int ps ∧
    (write_score_to_excel env sheet p o ps os_ sw).1 (pi + 4, 2 + ci * 2 + 1) = XVal.int os_ ∧
    (write_score_to_excel env sheet p o ps os_ sw).2 = true := by
  simp only [write_score_to_excel, hp, ho]
  rw [if_neg h11]
  refine ⟨?_, ?_, rfl⟩
  · show upd (upd sheet (pi + 4, 2 + ci * 2) (XVal.int ps)) (pi + 4, 2 + ci * 2 + 1)
      (XVal.int os_) (pi + 4, 2 + ci * 2) = XVal.int ps
    rw [upd, if_neg (by simp), upd, if_pos rfl]
  · show upd (upd sheet (pi + 4, 2 + ci * 2) (XVal.int ps)) (pi + 4, 2 + ci * 2 + 1)
      (XVal.int os_) (pi + 4, 2 + ci * 2 + 1) = XVal.int os_
    rw [upd, if_pos rfl]

/-- C10 witness: on the empty two-player sheet, writing the pair
(11, 7) for (alice, bob) stores exactly 11 and 7 — the extracted
terminal value reaches the sheet through the intermediate phase. -/
theorem c10_verbatim_scores_witness :
    (write_score_to_excel envTwo (fun _ => XVal.none) "alice" "bob" 11 7 false).1 (4, 4) =
        XVal.int 11 ∧
    (write_score_to_excel envTwo (fun _ => XVal.none) "alice" "bob" 11 7 false).1 (4, 5) =
        XVal.int 7 ∧
    (write_score_to_excel envTwo (fun _ => XVal.none) "alice" "bob" 11 7 false).2 = true := by
  have h := c10_verbatim_scores envTwo (fun _ => XVal.none) "alice" "bob" 11 7 false 0 1
    (by decide) (by decide) (by decide)
  exact h

/-- Updating a cell stores the value there. -/
theorem upd_same (f : Nat × Nat → XVal) (p : Nat × Nat) (v : XVal) : upd f p v p = v := by
  simp [upd]

/-- Updating a cell leaves every other cell alone. -/
theorem upd_ne (f : Nat × Nat → XVal) (p q : Nat × Nat) (v : XVal) (h : q ≠ p) :
    upd f p v q = f q := by
  simp [upd, h]

/-- C6: for a Normal pairing whose extracted names match neither exact
case-insensitive order, the mapper assigns by containment of the ROW
player's name only — left containment gives `(leftScore, rightScore)`,
right containment gives `(rightScore, leftScore)`, and otherwise it
abstains (`none`); containment of the column opponent's name alone
never assigns.  Moreover (second conjunct) when the mapper abstains the
Phase-1 caller performs no write: the scores sheet is unchanged. -/
theorem c6_substring_fallback (player opponent left_name right_name : Name) (ls rs : Int)
    (h1 : ¬(pyLower (pyStrip left_name) = pyLower (pyStrip player) ∧
            pyLower (pyStrip right_name) = pyLower (pyStrip opponent)))
    (h2 : ¬(pyLower (pyStrip left_name) = pyLower (pyStrip opponent) ∧
            pyLower (pyStrip right_name) = pyLower (pyStrip player))) :
    (map_scores_for_excel player opponent left_name right_name ls rs false =
      (if pyContains (pyLower (pyStrip left_name)) (pyLower (pyStrip player)) then some (ls, rs)
       else if pyContains (pyLower (pyStrip right_name)) (pyLower (pyStrip player)) then
         some (rs, ls)
       else Option.none)) ∧
    (∀ (env : Env) (rem : Remote) (st : St) (mid : Int) (p o : Name) (sw : Bool)
        (d : Doc) (lnx rnx : Name) (a b : Int),
      pdGet st.html_cache mid = some (some d) → d.data.isEmpty = false →
      rem.extract d env.playersInMatches = some (lnx, rnx, a, b) →
      map_scores_for_excel p o lnx rnx a b sw = Option.none →
      ∀ rc, (phase1Entry env rem st (mid, (p, o, sw))).ws.scoresSheet rc =
        st.ws.scoresSheet rc) := by
  constructor
  · simp only [map_scores_for_excel]
    rw [if_neg (by simp), if_neg h1, if_neg h2]
    by_cases hA : pyContains (pyLower (pyStrip left_name)) (pyLower (pyStrip player)) = true
    · simp [hA]
    · by_cases hB : pyContains (pyLower (pyStrip right_name)) (pyLower (pyStrip player)) = true
      · simp [hA, hB]
      · simp [hA, hB]
  · intro env rem st mid p o sw d lnx rnx a b hcache hne hext hmap rc
    simp [phase1Entry, hcache, optDocTruthy, hne, hext, hmap]

/-- C6 witness: the pairing (eve, frank) with extracted names
(carol, dave) has no exact match and no containment, so the mapper
returns `none`, and the Phase-1 entry for such a match leaves the
scores sheet untouched. -/
theorem c6_substring_fallback_witness :
    map_scores_for_excel "eve" "frank" "carol" "dave" 2 3 false = Option.none ∧
    (phase1Entry envAbstain remAbstain stAbstain (5, ("eve", "frank", false))).ws.scoresSheet
        (4, 2) = XVal.none := by
  have h := c6_substring_fallback "eve" "frank" "carol" "dave" 2 3 (by decide) (by decide)
  constructor
  · rw [h.1]; decide
  · have h2 := h.2 envAbstain remAbstain stAbstain 5 "eve" "frank" false "D" "carol" "dave" 2 3
      rfl rfl rfl (by decide) (4, 2)
    exact h2.trans rfl

/-- C2 amended claim: once either slot of a pairing holds the terminal
value 11, the intermediate phase (`write_score_to_excel`) never changes
either of its cells; the terminal phase still writes — but only the
value 11 — so a cell that already holds 11 is never changed, while the
pairing's other, non-terminal cell may still be set to 11 by a Phase-2
winner write. -/
theorem c2_terminal_immutability_amended (env : Env) (st : St)
    (sheet : Nat × Nat → XVal) (p o : Name) (ps os_ : Int) (sw : Bool)
    (pi ci : Nat) (rc : Nat × Nat)
    (hp : env.playersInMatches.findIdx? (fun q => decide (q = p)) = some pi)
    (ho : env.playersInMatches.findIdx? (fun q => decide (q = o)) = some ci) :
    ((sheet (pi + 4, 2 + ci * 2) = XVal.int 11 ∨ sheet (pi + 4, 2 + ci * 2 + 1) = XVal.int 11) →
      (write_score_to_excel env sheet p o ps os_ sw).1 = sheet) ∧
    (st.ws.scoresSheet rc = XVal.int 11 → (phase2 env st).ws.scoresSheet rc = XVal.int 11) ∧
    ((phase2 env st).ws.scoresSheet rc = st.ws.scoresSheet rc ∨
      (phase2 env st).ws.scoresSheet rc = XVal.int 11) := by
  refine ⟨?_, ?_, phase2_scores env st rc⟩
  · intro h11
    simp only [write_score_to_excel, hp, ho]
    rw [if_pos h11]
  · intro h
    rcases phase2_scores env st rc with hc | hc
    · rw [hc, h]
    · exact hc

/-- C2 amended witness: with alice's cell already 11 on the concrete
finished sheet, an intermediate write for the pairing changes nothing,
and the cell holding 11 still holds 11 after the terminal phase. -/
theorem c2_terminal_immutability_amended_witness :
    (write_score_to_excel envTwo sheetFinished "alice" "bob" 3 4 false).1 = sheetFinished ∧
    (phase2 envTwo stFinished).ws.scoresSheet (4, 4) = XVal.int 11 := by
  have h := c2_terminal_immutability_amended envTwo stFinished sheetFinished "alice" "bob"
    3 4 false 0 1 (4, 4) (by decide) (by decide)
  exact ⟨h.1 (Or.inl (by decide)), h.2.1 (by decide)⟩

/-- C3 amended claim: in the terminal phase, for a decided match in the
mapping whose two players are found in the "Matches" sheet, 11 is
written into the winner's own axis cell when the orientation is Normal;
when the orientation is Switched the two target cells are SWAPPED — a
winner equal to the row player puts 11 into the column-axis cell and
vice versa; in every case the other cell of the pairing is left
unchanged, and when the winner's name matches neither player nothing is
written. -/
theorem c3_terminal_write_amended (env : Env) (st : St) (match_id : Int)
    (winner_name p o : Name) (sw : Bool) (pi ci : Nat)
    (hm : pdGet st.match_id_to_excel match_id = some (p, o, sw))
    (hp : env.playersInMatches.findIdx? (fun q => decide (q = p)) = some pi)
    (ho : env.playersInMatches.findIdx? (fun q => decide (q = o)) = some ci)
    (hne : pyLower p ≠ pyLower o) :
    ((sw = true → pyLower (pyStrip winner_name) = pyLower p →
      (phase2Entry env st (match_id, winner_name)).ws.scoresSheet (pi + 4, 2 + ci * 2 + 1) =
          XVal.int 11 ∧
        (phase2Entry env st (match_id, winner_name)).ws.scoresSheet (pi + 4, 2 + ci * 2) =
          st.ws.scoresSheet (pi + 4, 2 + ci * 2)) ∧
    (sw = false → pyLower (pyStrip winner_name) = pyLower p →
      (phase2Entry env st (match_id, winner_name)).ws.scoresSheet (pi + 4, 2 + ci * 2) =
          XVal.int 11 ∧
        (phase2Entry env st (match_id, winner_name)).ws.scoresSheet (pi + 4, 2 + ci * 2 + 1) =
          st.ws.scoresSheet (pi + 4, 2 + ci * 2 + 1)) ∧
    (sw = true → pyLower (pyStrip winner_name) = pyLower o →
      (phase2Entry env st (match_id, winner_name)).ws.scoresSheet (pi + 4, 2 + ci * 2) =
          XVal.int 11 ∧
        (phase2Entry env st (match_id, winner_name)).ws.scoresSheet (pi + 4, 2 + ci * 2 + 1) =
          st.ws.scoresSheet (pi + 4, 2 + ci * 2 + 1)) ∧
    (sw = false → pyLower (pyStrip winner_name) = pyLower o →
      (phase2Entry env st (match_id, winner_name)).ws.scoresSheet (pi + 4, 2 + ci * 2 + 1) =
          XVal.int 11 ∧
        (phase2Entry env st (match_id, winner_name)).ws.scoresSheet (pi + 4, 2 + ci * 2) =
          st.ws.scoresSheet (pi + 4, 2 + ci * 2)) ∧
    (pyLower (pyStrip winner_name) ≠ pyLower p → pyLower (pyStrip winner_name) ≠ pyLower o →
      ∀ rc, (phase2Entry env st (match_id, winner_name)).ws.scoresSheet rc =
        st.ws.scoresSheet rc)) := by
  have hcl : ((pi + 4, 2 + ci * 2) : Nat × Nat) ≠ (pi + 4, 2 + ci * 2 + 1) := by
    simp [Prod.ext_iff]
  have hcr : ((pi + 4, 2 + ci * 2 + 1) : Nat × Nat) ≠ (pi + 4, 2 + ci * 2) := by
    simp [Prod.ext_iff]
  refine ⟨?_, ?_, ?_, ?_, ?_⟩
  · rintro rfl hw
    simp only [phase2Entry, hm, hp, ho, if_pos rfl]
    rw [if_pos hw]
    exact ⟨upd_same _ _ _, upd_ne _ _ _ _ hcl⟩
  · rintro rfl hw
    simp only [phase2Entry, hm, hp, ho]
    rw [if_neg (by simp), if_pos hw]
    exact ⟨upd_same _ _ _, upd_ne _ _ _ _ hcr⟩
  · rintro rfl hw
    have hnp : pyLower (pyStrip winner_name) ≠ pyLower p := fun hq => hne (hq.symm.trans hw)
    simp only [phase2Entry, hm, hp, ho, if_pos rfl]
    rw [if_neg hnp, if_pos hw]
    exact ⟨upd_same _ _ _, upd_ne _ _ _ _ hcr⟩
  · rintro rfl hw
    have hnp : pyLower (pyStrip winner_name) ≠ pyLower p := fun hq => hne (hq.symm.trans hw)
    simp only [phase2Entry, hm, hp, ho]
    rw [if_neg (by simp), if_neg hnp, if_pos hw]
    exact ⟨upd_same _ _ _, upd_ne _ _ _ _ hcl⟩
  · intro hw1 hw2 rc
    cases sw with
    | true =>
      simp only [phase2Entry, hm, hp, ho, if_pos rfl]
      rw [if_neg hw1, if_neg hw2]
      simp
    | false =>
      simp only [phase2Entry, hm, hp, ho]
      rw [if_neg (by simp), if_neg hw1, if_neg hw2]

/-- C3 amended witness: for the Switched pairing (alice, bob) of match
7 with winner alice, the terminal 11 lands in the column-axis cell
(4,5) and the row-axis cell (4,4) is unchanged. -/
theorem c3_terminal_write_amended_witness :
    (phase2Entry envTwo stSwitched (7, "alice")).ws.scoresSheet (4, 5) = XVal.int 11 ∧
    (phase2Entry envTwo stSwitched (7, "alice")).ws.scoresSheet (4, 4) =
      stSwitched.ws.scoresSheet (4, 4) := by
  have h := (c3_terminal_write_amended envTwo stSwitched 7 "alice" "alice" "bob" true 0 1
    rfl (by decide) (by decide) (by decide)).1 rfl (by decide)
  simpa using h

/-- C1: when the control cell already holds the completion sentinel at
the start of a run, the run succeeds, Steps 1-2 are skipped — and,
contrary to the claim, the scoring and terminal phases write NOTHING:
`match_id_to_excel` is only populated inside the skipped steps, so
Phase 1 iterates an empty mapping and every Phase-2 item misses the
mapping; every score cell is left exactly as it was, even for pairings
whose identifier cells are populated and whose matches have live or
finished scores. -/
theorem c1_marker_skips_all_score_writes (env : Env) (rem : Remote) (ws : WS)
    (h : ws.control = XVal.str "All match IDs filled") :
    ∃ st', run env rem ws = Except.ok st' ∧
      ∀ rc, st'.ws.scoresSheet rc = ws.scoresSheet rc := by
  have hm2e : (step3 env rem (flagHeaders env (initSt ws))).match_id_to_excel = [] :=
    (step3_ws_dicts env rem (flagHeaders env (initSt ws))).2
  have hp1 : phase1 env rem (step3 env rem (flagHeaders env (initSt ws))) =
      step3 env rem (flagHeaders env (initSt ws)) := by
    unfold phase1
    rw [hm2e]
    rfl
  have hp2 : phase2 env (step3 env rem (flagHeaders env (initSt ws))) =
      step3 env rem (flagHeaders env (initSt ws)) :=
    phase2_m2e_nil env _ hm2e
  refine ⟨completion env (phase2 env (phase1 env rem
      (step3 env rem (flagHeaders env (initSt ws))))), ?_, ?_⟩
  · simp only [run]
    rw [if_pos (show (flagHeaders env (initSt ws)).ws.control =
      XVal.str "All match IDs filled" from h)]
  · intro rc
    rw [hp1, hp2,
      congrFun (completion_spec env (step3 env rem (flagHeaders env (initSt ws)))).2.1 rc,
      (step3_ws_dicts env rem (flagHeaders env (initSt ws))).1]
    rfl

/-- C1 witness: a workbook carrying the marker, with a remote world
where match 123 would yield a live score: the run succeeds and no score
cell changes. -/
theorem c1_marker_skips_all_score_writes_witness :
    ∃ st', run envTwo remNormal wsMarkerEmpty = Except.ok st' ∧
      ∀ rc, st'.ws.scoresSheet rc = wsMarkerEmpty.scoresSheet rc :=
  c1_marker_skips_all_score_writes envTwo remNormal wsMarkerEmpty rfl

/-- A successful run decomposes into the final pipeline applied to the
state reached after the (possibly skipped) Steps 1-2. -/
theorem run_ok_cases (env : Env) (rem : Remote) (ws : WS) (st' : St)
    (h : run env rem ws = Except.ok st') :
    ∃ st2, st' = completion env (phase2 env (phase1 env rem (step3 env rem st2))) ∧
      ((ws.control = XVal.str "All match IDs filled" ∧ st2 = flagHeaders env (initSt ws)) ∨
        ∃ st1, step1 env rem (flagHeaders env (initSt ws)) = Except.ok st1 ∧
          step2 env rem st1 = Except.ok st2) := by
  simp only [run] at h
  split at h
  · exact absurd h (by simp)
  · next st2 hcond =>
    cases h
    split at hcond
    · next hc =>
      cases hcond
      exact ⟨_, rfl, Or.inl ⟨hc, rfl⟩⟩
    · split at hcond
      · exact absurd hcond (by simp)
      · next st1 h1 => exact ⟨st2, rfl, Or.inr ⟨st1, h1, hcond⟩⟩

/-- C9: every identifier cell of the "Links" grid that is non-empty
(truthy) at the start of a successful run holds the same value at the
end of the run: Step 2 writes an id only into a currently empty cell
(`if not cell.value`), and no other part of the run writes to the
links sheet at all — even when the remote source reports a different
identifier for an already-populated pairing. -/
theorem c9_identifier_append_only (env : Env) (rem : Remote) (ws : WS) (st' : St)
    (h : run env rem ws = Except.ok st') (rc : Nat × Nat)
    (ht : (ws.links rc).truthy = true) : st'.ws.links rc = ws.links rc := by
  obtain ⟨st2, hst', hcases⟩ := run_ok_cases env rem ws st' h
  have hst2 : st2.ws.links rc = ws.links rc := by
    rcases hcases with ⟨_, rfl⟩ | ⟨st1, h1, h2⟩
    · rfl
    · have e1 : st1.ws = (flagHeaders env (initSt ws)).ws := step1_ws env rem _ st1 h1
      have e2 := step2Players_links_truthy env rem env.players st1 st2 h2 rc
        (by rw [show st1.ws = (flagHeaders env (initSt ws)).ws from e1]; exact ht)
      rw [e2, e1]
      rfl
  subst hst'
  rw [congrFun (completion_spec env (phase2 env (phase1 env rem (step3 env rem st2)))).1 rc,
    congrFun (phase2_other env (phase1 env rem (step3 env rem st2))).1 rc,
    congrFun (phase1_other env rem (step3 env rem st2)).1 rc,
    (step3_ws_dicts env rem st2).1]
  exact hst2

/-- C9 witness: a successful run over the workbook holding id 123 in
both oriented cells leaves the populated cell (2,3) unchanged. -/
theorem c9_identifier_append_only_witness :
    ∃ st', run envTwo remNormal wsBothCells = Except.ok st' ∧
      st'.ws.links (2, 3) = wsBothCells.links (2, 3) := by
  cases hrun : run envTwo remNormal wsBothCells with
  | error e =>
    have hfl : (run envTwo remNormal wsBothCells).map (fun st => st.fetchLog) =
        Except.ok [123, 123] := rfl
    rw [hrun] at hfl
    cases hfl
  | ok st' =>
    exact ⟨st', rfl, c9_identifier_append_only envTwo remNormal wsBothCells st' hrun (2, 3)
      (by decide)⟩

/-- C7 amended claim: a run sets the completion marker when every
off-diagonal identifier cell is non-empty, but it never CLEARS the
marker: at the end of a successful run the control cell holds the
sentinel if and only if the final links scan passes or the marker was
already present at the start.  (So introducing a missing identifier —
a newly added player — does NOT make an already-marked grid unmarked.)
-/
theorem c7_completion_amended (env : Env) (rem : Remote) (ws : WS) (st' : St)
    (h : run env rem ws = Except.ok st') :
    (st'.ws.control = XVal.str "All match IDs filled" ↔
      (allFilledCheck env st'.ws.links = true ∨
        ws.control = XVal.str "All match IDs filled")) := by
  obtain ⟨st2, hst', hcases⟩ := run_ok_cases env rem ws st' h
  have hctrl2 : st2.ws.control = ws.control := by
    rcases hcases with ⟨_, rfl⟩ | ⟨st1, h1, h2⟩
    · rfl
    · have e1 : st1.ws = (flagHeaders env (initSt ws)).ws := step1_ws env rem _ st1 h1
      have e2 := (step2Players_scores_control env rem env.players st1 st2 h2).2
      rw [e2, e1]
      rfl
  subst hst'
  have hXctrl : (phase2 env (phase1 env rem (step3 env rem st2))).ws.control = ws.control := by
    rw [(phase2_other env (phase1 env rem (step3 env rem st2))).2,
      (phase1_other env rem (step3 env rem st2)).2.1,
      (step3_ws_dicts env rem st2).1, hctrl2]
  rw [(completion_spec env (phase2 env (phase1 env rem (step3 env rem st2)))).2.2,
    (completion_spec env (phase2 env (phase1 env rem (step3 env rem st2)))).1, hXctrl]
  by_cases hchk :
      allFilledCheck env (phase2 env (phase1 env rem (step3 env rem st2))).ws.links = true
  · rw [if_pos hchk]
    simp [hchk]
  · rw [if_neg hchk]
    simp [hchk]

/-- C7 amended witness: on the both-cells workbook the run succeeds,
and the marker equivalence holds at that concrete input. -/
theorem c7_completion_amended_witness :
    ∃ st', run envTwo remNormal wsBothCells = Except.ok st' ∧
      (st'.ws.control = XVal.str "All match IDs filled" ↔
        (allFilledCheck envTwo st'.ws.links = true ∨
          wsBothCells.control = XVal.str "All match IDs filled")) := by
  cases hrun : run envTwo remNormal wsBothCells with
  | error e =>
    have hfl : (run envTwo remNormal wsBothCells).map (fun st => st.fetchLog) =
        Except.ok [123, 123] := rfl
    rw [hrun] at hfl
    cases hfl
  | ok st' =>
    exact ⟨st', rfl, c7_completion_amended envTwo remNormal wsBothCells st' hrun⟩

/-- A name that occurs in the column header list has a column index. -/
theorem colIndexLinksAux_isSome (n : Name) :
    ∀ (l : List Name) (i : Nat), n ∈ l → (colIndexLinksAux n i l).isSome = true := by
  intro l
  induction l with
  | nil => intro i h; cases h
  | cons c rest ih =>
    intro i h
    unfold colIndexLinksAux
    cases hrest : colIndexLinksAux n (i + 1) rest with
    | some v => simp
    | none =>
      rcases List.mem_cons.mp h with h1 | h1
      · simp [← h1]
      · have h2 := ih (i + 1) h1
        rw [hrest] at h2
        simp at h2

/-- A member of a list is found by `findIdx?` with the equality
predicate. -/
theorem findIdx?_isSome_of_mem (p : Name) (l : List Name) (h : p ∈ l) :
    (l.findIdx? (fun q => decide (q = p))).isSome = true := by
  cases hf : l.findIdx? (fun q => decide (q = p)) with
  | some v => rfl
  | none =>
    have h2 := List.findIdx?_eq_none_iff.mp hf p h
    simp at h2

/-- Under well-formed identifier cells, `step1Cell` never raises. -/
theorem step1Cell_ok (env : Env) (rem : Remote) (i : Nat) (p opp : Name) (s : St)
    (hcol : opp ∈ env.colOpponentsLinks) (hrow : p ∈ env.rowPlayersLinks)
    (hpy : ∀ rc, (s.ws.links rc).truthy = true → (pyInt (s.ws.links rc)).isSome = true) :
    ∃ s', step1Cell env rem i p opp s = Except.ok s' ∧ s'.ws = s.ws := by
  cases hres : step1Cell env rem i p opp s with
  | ok s' => exact ⟨s', rfl, step1Cell_ws env rem i p opp s s' hres⟩
  | error e =>
    exfalso
    obtain ⟨c, hc⟩ := Option.isSome_iff_exists.mp
      (show (colIndexLinks env opp).isSome = true from
        colIndexLinksAux_isSome opp env.colOpponentsLinks 2 hcol)
    obtain ⟨k, hk⟩ := Option.isSome_iff_exists.mp (findIdx?_isSome_of_mem p _ hrow)
    by_cases htr : (s.ws.links (i, c)).truthy = true
    · obtain ⟨mid, hmid⟩ := Option.isSome_iff_exists.mp (hpy (i, c) htr)
      simp only [step1Cell, hc, hk, htr, hmid] at hres
      repeat' split at hres
      all_goals simp_all
    · simp only [step1Cell, hc, hk, htr] at hres
      repeat' split at hres
      all_goals simp_all

/-- Under well-formed identifier cells, the Step-1 column loop never
raises and never touches the workbook. -/
theorem step1Cols_ok (env : Env) (rem : Remote) (i : Nat) (p : Name)
    (hrow : p ∈ env.rowPlayersLinks) :
    ∀ (cols : List Name), (∀ o ∈ cols, o ∈ env.colOpponentsLinks) →
      ∀ s : St, (∀ rc, (s.ws.links rc).truthy = true → (pyInt (s.ws.links rc)).isSome = true) →
        ∃ s', step1Cols env rem i p cols s = Except.ok s' ∧ s'.ws = s.ws := by
  intro cols
  induction cols with
  | nil => intro _ s _; exact ⟨s, rfl, rfl⟩
  | cons o rest ih =>
    intro hsub s hpy
    obtain ⟨s1, h1, hws1⟩ := step1Cell_ok env rem i p o s (hsub o (by simp)) hrow hpy
    obtain ⟨s', h2, hws2⟩ := ih (fun o ho => hsub o (by simp [ho])) s1
      (by intro rc; rw [hws1]; exact hpy rc)
    refine ⟨s', ?_, hws2.trans hws1⟩
    unfold step1Cols
    rw [h1]
    exact h2

/-- Under well-formed identifier cells, the Step-1 row loop never
raises and never touches the workbook. -/
theorem step1Rows_ok (env : Env) (rem : Remote) :
    ∀ (rows : List Name), (∀ q ∈ rows, q ∈ env.rowPlayersLinks) →
      ∀ (i : Nat) (s : St),
        (∀ rc, (s.ws.links rc).truthy = true → (pyInt (s.ws.links rc)).isSome = true) →
        ∃ s', step1Rows env rem i rows s = Except.ok s' ∧ s'.ws = s.ws := by
  intro rows
  induction rows with
  | nil => intro _ i s _; exact ⟨s, rfl, rfl⟩
  | cons p rest ih =>
    intro hsub i s hpy
    obtain ⟨s1, h1, hws1⟩ := step1Cols_ok env rem i p (hsub p (by simp))
      env.colOpponentsLinks (fun o ho => ho) s hpy
    obtain ⟨s', h2, hws2⟩ := ih (fun q hq => hsub q (by simp [hq])) (i + 1) s1
      (by intro rc; rw [hws1]; exact hpy rc)
    refine ⟨s', ?_, hws2.trans hws1⟩
    unfold step1Rows
    rw [h1]
    exact h2

/-- When a player's page answers successfully (whenever it is needed),
`step2Player` never raises. -/
theorem step2Player_ok (env : Env) (rem : Remote) (p : Name) (s : St)
    (hpage : ∀ pid, env.playerIds p = some pid → pid.data.isEmpty = false →
      ∃ d, rem.playerPage pid = Resp.ok d) :
    ∃ s', step2Player env rem p s = Except.ok s' := by
  cases hres : step2Player env rem p s with
  | ok s' => exact ⟨s', rfl⟩
  | error e =>
    exfalso
    simp only [step2Player] at hres
    split at hres
    · cases hres
    · next pid hid =>
      split at hres
      · cases hres
      · next hemp =>
        split at hres
        · cases hres
        · obtain ⟨d, hd⟩ := hpage pid hid (by simpa using hemp)
          rw [show get_player_matches rem pid =
              Except.ok ((rem.parseTriples d).map (fun t => (pyStrip t.1, t.2.1, t.2.2)))
            from by simp [get_player_matches, hd]] at hres
          cases hres

/-- When every consulted player page answers successfully, the Step-2
loop never raises. -/
theorem step2Players_ok (env : Env) (rem : Remote)
    (hpage : ∀ p, p ∈ env.players → ∀ pid, env.playerIds p = some pid →
      pid.data.isEmpty = false → ∃ d, rem.playerPage pid = Resp.ok d) :
    ∀ (l : List Name), (∀ q ∈ l, q ∈ env.players) →
      ∀ s : St, ∃ s', step2Players env rem l s = Except.ok s' := by
  intro l
  induction l with
  | nil => intro _ s; exact ⟨s, rfl⟩
  | cons p rest ih =>
    intro hsub s
    obtain ⟨s1, h1⟩ := step2Player_ok env rem p s (hpage p (hsub p (by simp)))
    obtain ⟨s', h2⟩ := ih (fun q hq => hsub q (by simp [hq])) s1
    refine ⟨s', ?_⟩
    unfold step2Players
    rw [h1]
    exact h2

/-- C5 amended claim: a failed match-document fetch always degrades to
"unavailable" — `fetch_list_html` returns `None` on a raised exception
and on a non-success response, never propagating — and Step 3 likewise
swallows its page/export failures; but the run is NOT failure-proof
everywhere: it completes whenever every consulted Step-2 player page
answers successfully (and the identifier cells are well formed), for
ARBITRARY match-document and export failures, while a Step-2
player-page failure aborts it (see the counterexample). -/
theorem c5_error_handling_amended (env : Env) (rem : Remote) (ws : WS)
    (h1 : ∀ rc, (ws.links rc).truthy = true → (pyInt (ws.links rc)).isSome = true)
    (h2 : ∀ p, p ∈ env.players → ∀ pid, env.playerIds p = some pid →
      pid.data.isEmpty = false → ∃ d, rem.playerPage pid = Resp.ok d) :
    (∀ mid, rem.matchResp mid = Resp.exn → fetch_list_html rem mid = Option.none) ∧
    (∀ mid d, rem.matchResp mid = Resp.notOk d → fetch_list_html rem mid = Option.none) ∧
    ∃ st', run env rem ws = Except.ok st' := by
  refine ⟨?_, ?_, ?_⟩
  · intro mid hm
    simp [fetch_list_html, hm]
  · intro mid d hm
    simp [fetch_list_html, hm]
  · by_cases hskip : ws.control = XVal.str "All match IDs filled"
    · refine ⟨completion env (phase2 env (phase1 env rem
        (step3 env rem (flagHeaders env (initSt ws))))), ?_⟩
      simp only [run]
      rw [if_pos (show (flagHeaders env (initSt ws)).ws.control =
        XVal.str "All match IDs filled" from hskip)]
    · obtain ⟨st1, hs1, _⟩ := step1Rows_ok env rem env.rowPlayersLinks (fun q hq => hq) 2
        (flagHeaders env (initSt ws)) h1
      obtain ⟨st2, hs2⟩ := step2Players_ok env rem h2 env.players (fun q hq => hq) st1
      refine ⟨completion env (phase2 env (phase1 env rem (step3 env rem st2))), ?_⟩
      simp only [run]
      rw [if_neg (show ¬(flagHeaders env (initSt ws)).ws.control =
        XVal.str "All match IDs filled" from hskip)]
      rw [show step1 env rem (flagHeaders env (initSt ws)) = Except.ok st1 from hs1]
      show (match step2 env rem st1 with
        | Except.error e => Except.error e
        | Except.ok st2 =>
          Except.ok (completion env (phase2 env (phase1 env rem (step3 env rem st2))))) =
        Except.ok (completion env (phase2 env (phase1 env rem (step3 env rem st2))))
      rw [show step2 env rem st1 = Except.ok st2 from hs2]

/-- C5 amended witness: with alice's page reachable and match fetches
and export fetches failing, the concrete run still completes. -/
theorem c5_error_handling_amended_witness :
    ∃ st', run envAlice remFinishedBob wsFinished = Except.ok st' := by
  refine (c5_error_handling_amended envAlice remFinishedBob wsFinished ?_ ?_).2.2
  · intro rc ht
    by_cases hrc : rc = (2, 3)
    · subst hrc; decide
    · exfalso
      simp [wsFinished, hrc, XVal.truthy] at ht
  · intro p hp pid hid hne
    simp only [envAlice, envTwo] at hid
    split at hid
    · cases hid
      exact ⟨"U", rfl⟩
    · cases hid

end DG
